import Mathlib

/-
  Verification of the FeedGuideRunner step-execution engine
  (repository FilesExtractor, file parser.py).

  The engine interprets a feed guide (a list of step records) against a
  browser session and a direct HTTP fetcher.  The embedding below models
  the interpreter loop of FeedGuideRunner.run, the helper
  _download_via_requests, and the filename choices of the two download
  paths.  Browser and network outcomes are supplied by an explicit
  environment of oracles (Env), so that the control flow of the
  interpreter itself - status fields, abort policy, page threading,
  file-write targets - is modelled exactly as the source writes it.
-/

/-- Outcome of one Playwright expect_download block around a click:
the download completed (carrying the suggested filename, possibly empty),
a PlaywrightTimeoutError was raised, or some other exception was raised. -/
inductive DlOutcome where
  | completed (suggested : String)
  | timeoutErr (msg : String)
  | failed (msg : String)
deriving Repr, DecidableEq

/-- Observable side effects of a run: a file written at a path, or an
action performed against a given page (identified by a Nat handle). -/
inductive Event where
  | writeFile (path : String)
  | pageAct (page : Nat) (desc : String)
deriving Repr, DecidableEq

/-- One step record of a feed guide, mirroring the dict fields the code
reads.  A field is some v exactly when the corresponding key is present
in the step dict with string value v; continue_on_error mirrors
step.get("continue_on_error", False). -/
structure Step where
  action : Option String
  url : Option String
  selector : Option String
  text : Option String
  save_as : Option String
  value : Option String
  seconds : Option Nat
  continue_on_error : Bool
deriving Repr, DecidableEq

/-- The step_result dict built by the loop body.  Every field that the
code sets only on some paths is an Option; in particular status is
none when no branch ever assigned it (this happens on the direct-fetch
download path, which only merges the fetch result dict into
step_result). resOk and file model the "ok" and "file" keys merged
by step_result.update(r). -/
structure StepResult where
  step : Nat
  action : String
  raw : Step
  status : Option String
  info : Option String
  error : Option String
  resOk : Option Bool
  file : Option String
deriving Repr, DecidableEq

/-- Oracles for every browser or network operation the loop performs.
Except String Unit models a Python call that either returns or raises
(with the exception message).  newPageSel and newPageText cover the
whole expect_page/click/wait_for_load_state sequence, returning the new
page handle on success.  safeClickByText models _safe_click_by_text,
which never raises and returns (found, description). -/
structure Env where
  goto : Nat → String → Except String Unit
  waitForSelector : Nat → String → Except String Unit
  fill : Nat → String → String → Except String Unit
  clickSelector : Nat → String → Except String Unit
  safeClickByText : Nat → String → Bool × String
  newPageSel : Nat → String → Except String Nat
  newPageText : Nat → String → Except String Nat
  dlSel : Nat → String → DlOutcome
  dlText : Nat → String → DlOutcome
  fetch : String → Except String Unit

/-- Action kinds of the elif dispatch chain in FeedGuideRunner.run,
with unknown for the final else branch. -/
inductive ActionKind where
  | goto | wait | wait_for_selector | fill | click | click_new_page | download | unknown
deriving Repr, DecidableEq

/-- ASCII lowercasing of a string, modelling the Python str.lower call
on the action names (which are ASCII); written over the character list
so that it evaluates by kernel reduction. -/
def pyLower (s : String) : String := String.mk (s.data.map Char.toLower)

/-- Split a character list on the slash character, as Python
str.split("/") does (adjacent separators give empty segments, the empty
string gives one empty segment). -/
def splitSlashAux : List Char → List Char → List (List Char)
  | [], acc => [acc.reverse]
  | c :: cs, acc =>
    if c = '/' then acc.reverse :: splitSlashAux cs []
    else splitSlashAux cs (c :: acc)

/-- The final path segment of a url: url.split("/")[-1]. -/
def lastSeg (s : String) : String := String.mk ((splitSlashAux s.data []).getLastD [])

/-- Boolean prefix test on character lists (used only to state facts
about paths, not by the engine itself). -/
def strLeads : List Char → List Char → Bool
  | [], _ => true
  | _ :: _, [] => false
  | a :: as, b :: bs => a = b && strLeads as bs

/-- Whether a path name is absolute on POSIX (starts with a slash). -/
def isAbs (name : String) : Bool :=
  match name.data with
  | [] => false
  | c :: _ => c = '/'

/-- The action string read by the loop: (step.get("action") or "").lower(). -/
def actionOf (s : Step) : String := pyLower (s.action.getD "")

/-- The elif chain on the lowered action string; "click" and
"click_text" select the same branch. -/
def dispatch (a : String) : ActionKind :=
  if a = "goto" then ActionKind.goto
  else if a = "wait" then ActionKind.wait
  else if a = "wait_for_selector" then ActionKind.wait_for_selector
  else if a = "fill" then ActionKind.fill
  else if a = "click" ∨ a = "click_text" then ActionKind.click
  else if a = "click_new_page" then ActionKind.click_new_page
  else if a = "download" then ActionKind.download
  else ActionKind.unknown

/-- Path join as os.path.join(download_dir, name) behaves on POSIX for
the shapes used here: an absolute name discards the directory. -/
def joinPath (dir name : String) : String :=
  if isAbs name then name else dir ++ "/" ++ name

/-- Filename chosen by _download_via_requests:
save_as or url.split("/")[-1] or "download.bin", with Python
or-falsiness on the empty string. -/
def directFetchFilename (saveAs : Option String) (url : String) : String :=
  let seg := lastSeg url
  let f1 := match saveAs with
    | some s => if s = "" then seg else s
    | none => seg
  if f1 = "" then "download.bin" else f1

/-- Result of _download_via_requests: the {ok: True, file} or
{ok: False, error} dict. -/
inductive DVROut where
  | ok (file : String)
  | err (msg : String)
deriving Repr, DecidableEq

/-- Model of _download_via_requests: fetch the url; on success derive
the filename, join it under the download dir, write the body there and
report the saved path; on any exception report {ok: False, error}. -/
def download_via_requests (env : Env) (dir : String) (url : String)
    (saveAs : Option String) : DVROut × List Event :=
  match env.fetch url with
  | Except.error e => (DVROut.err e, [])
  | Except.ok _ =>
    let dest := joinPath dir (directFetchFilename saveAs url)
    (DVROut.ok dest, [Event.writeFile dest])

/-- Destination filename of the browser-triggered download path:
suggested = download.suggested_filename or step.get("save_as") or "download.bin";
save_as = step.get("save_as", suggested). -/
def browserDownloadName (saveAs : Option String) (sugg : String) : String :=
  let suggested :=
    if sugg = "" then
      match saveAs with
      | some s => if s = "" then "download.bin" else s
      | none => "download.bin"
    else sugg
  match saveAs with
  | some s => s
  | none => suggested

/-- Outcome of the try body for one step, before the enclosing
except-handler runs.  done carries the step_result fields assigned by
the branch (status, info, error, ok, file), the current page after the
branch, the events performed and the paths appended to downloads.
raised carries the exception message and the info field if one was
assigned before the raise (the except-handler then overwrites status
with "error" and error with the message, keeps info, and leaves the
page unchanged). -/
inductive TryOut where
  | done (status info error : Option String) (resOk : Option Bool) (file : Option String)
      (page : Nat) (evs : List Event) (dls : List String)
  | raised (msg : String) (infoPre : Option String)
deriving Repr, DecidableEq

/-- The browser-triggered download outcome handling: on completion the
code first saves to the fixed relative path "bos_history.xls", then
computes the destination name and saves again under the download dir;
a PlaywrightTimeoutError sets an error step_result and re-raises unless
continue_on_error; any other exception propagates to the outer handler. -/
def dlOutcomeHandle (dir : String) (page : Nat) (s : Step) (o : DlOutcome) : TryOut :=
  match o with
  | DlOutcome.completed sugg =>
    let dest := joinPath dir (browserDownloadName s.save_as sugg)
    TryOut.done (some "ok") none none none (some dest) page
      [Event.writeFile "bos_history.xls", Event.writeFile dest] [dest]
  | DlOutcome.timeoutErr m =>
    if s.continue_on_error then
      TryOut.done (some "error") none (some ("download timeout: " ++ m)) none none page [] []
    else TryOut.raised m none
  | DlOutcome.failed m => TryOut.raised m none

/-- The browser-triggered download branch: click by selector, or click
by text via _safe_click_by_text raising the not-found description on
failure before ever waiting on the download event. -/
def dlBrowser (env : Env) (dir : String) (page : Nat) (s : Step) : TryOut :=
  match s.selector with
  | some sel => dlOutcomeHandle dir page s (env.dlSel page sel)
  | none =>
    match s.text with
    | some t =>
      match env.safeClickByText page t with
      | (true, _) => dlOutcomeHandle dir page s (env.dlText page t)
      | (false, info) => TryOut.raised info none
    | none => TryOut.raised "No selector or text provided" none

/-- The try body of the loop: the elif chain over the action kinds,
transcribed branch by branch from FeedGuideRunner.run. -/
def execBody (env : Env) (dir : String) (page : Nat) (s : Step) (a : String) : TryOut :=
  match dispatch a with
  | ActionKind.goto =>
    match s.url with
    | none => TryOut.raised "KeyError: url" none
    | some u =>
      match env.goto page u with
      | Except.error e => TryOut.raised e none
      | Except.ok _ =>
        TryOut.done (some "ok") (some ("Navigated to " ++ u)) none none none page
          [Event.pageAct page ("goto " ++ u)] []
  | ActionKind.wait =>
    TryOut.done (some "ok") (some "Waited") none none none page [] []
  | ActionKind.wait_for_selector =>
    match s.selector with
    | none => TryOut.raised "KeyError: selector" none
    | some sel =>
      match env.waitForSelector page sel with
      | Except.error e => TryOut.raised e none
      | Except.ok _ =>
        TryOut.done (some "ok") (some ("Selector ready: " ++ sel)) none none none page [] []
  | ActionKind.fill =>
    match s.selector with
    | none => TryOut.raised "KeyError: selector" none
    | some sel =>
      match env.fill page sel (s.value.getD "") with
      | Except.error e => TryOut.raised e none
      | Except.ok _ =>
        TryOut.done (some "ok") (some ("Filled " ++ sel)) none none none page
          [Event.pageAct page ("fill " ++ sel)] []
  | ActionKind.click =>
    match s.selector with
    | some sel =>
      match env.clickSelector page sel with
      | Except.error e => TryOut.raised e none
      | Except.ok _ =>
        TryOut.done (some "ok") (some ("Clicked selector: " ++ sel)) none none none page
          [Event.pageAct page ("click " ++ sel)] []
    | none =>
      match s.text with
      | some t =>
        match env.safeClickByText page t with
        | (true, info) =>
          TryOut.done (some "ok") (some info) none none none page
            [Event.pageAct page ("clickText " ++ t)] []
        | (false, info) =>
          if s.continue_on_error then
            TryOut.done (some "error") (some info) none none none page [] []
          else TryOut.raised info (some info)
      | none => TryOut.raised "click requires selector or text" none
  | ActionKind.click_new_page =>
    match s.selector with
    | some sel =>
      match env.newPageSel page sel with
      | Except.error e => TryOut.raised e none
      | Except.ok p2 =>
        TryOut.done (some "ok") (some "Opened new page via selector") none none none p2 [] []
    | none =>
      match s.text with
      | some t =>
        match env.newPageText page t with
        | Except.error e => TryOut.raised e none
        | Except.ok p2 =>
          TryOut.done (some "ok") (some "Opened new page via text") none none none p2 [] []
      | none => TryOut.raised "click_new_page needs selector or text" none
  | ActionKind.download =>
    match s.url with
    | some u =>
      match download_via_requests env dir u s.save_as with
      | (DVROut.ok f, evs) => TryOut.done none none none (some true) (some f) page evs [f]
      | (DVROut.err e, evs) => TryOut.done none none (some e) (some false) none page evs []
    | none =>
      if s.selector.isSome ∨ s.text.isSome then dlBrowser env dir page s
      else TryOut.raised "download needs selector/text/url" none
  | ActionKind.unknown =>
    if s.continue_on_error then
      TryOut.done (some "error") none (some ("Unknown action: " ++ a)) none none page [] []
    else TryOut.raised ("Unknown action: " ++ a) none

/-- Result of one loop iteration: the appended StepResult, the current
page afterwards, the events performed, the paths appended to the
downloads list, and the abort signal (some message when the except
handler re-raises, none when the loop continues). -/
structure StepOut where
  sr : StepResult
  page : Nat
  events : List Event
  dls : List String
  ab : Option String
deriving Repr

/-- One iteration of the step loop: run the try body, then the except
handler.  A raised exception yields a StepResult with status "error"
and the message as error, keeps any info assigned before the raise,
leaves the page unchanged, and aborts unless continue_on_error. -/
def execStep (env : Env) (dir : String) (page idx : Nat) (s : Step) : StepOut :=
  match execBody env dir page s (actionOf s) with
  | TryOut.done st info err rOk file p evs dls =>
    { sr := { step := idx, action := actionOf s, raw := s, status := st, info := info,
              error := err, resOk := rOk, file := file },
      page := p, events := evs, dls := dls, ab := none }
  | TryOut.raised msg infoPre =>
    { sr := { step := idx, action := actionOf s, raw := s, status := some "error",
              info := infoPre, error := some msg, resOk := none, file := none },
      page := page, events := [], dls := [],
      ab := if s.continue_on_error then none else some msg }

/-- Aggregate outcome of running a (suffix of a) step list: the
StepResult list in execution order, the downloads list, the events, the
abort flag (true when the run raised out of the loop) and the final
current page. -/
structure RunOut where
  steps : List StepResult
  downloads : List String
  events : List Event
  aborted : Bool
  finalPage : Nat
deriving Repr

/-- The step loop of FeedGuideRunner.run: execute steps in order from
the given index and current page; on abort the erroring StepResult is
still appended and no later step is attempted. -/
def runSteps (env : Env) (dir : String) (idx page : Nat) (ss : List Step) : RunOut :=
  match ss with
  | [] => { steps := [], downloads := [], events := [], aborted := false, finalPage := page }
  | s :: rest =>
    let o := execStep env dir page idx s
    match o.ab with
    | some _ =>
      { steps := [o.sr], downloads := o.dls, events := o.events, aborted := true,
        finalPage := o.page }
    | none =>
      let r := runSteps env dir (idx + 1) o.page rest
      { steps := o.sr :: r.steps, downloads := o.dls ++ r.downloads,
        events := o.events ++ r.events, aborted := r.aborted, finalPage := r.finalPage }

/-- A feed guide: feed_name and the ordered step list. -/
structure FeedGuide where
  feed_name : Option String
  steps : List Step
deriving Repr, DecidableEq

/-- The results dict returned by run (with the abort flag recording
whether the loop raised, and the event log recording side effects). -/
structure RunResult where
  feed_name : Option String
  steps : List StepResult
  downloads : List String
  events : List Event
  aborted : Bool
deriving Repr

/-- FeedGuideRunner.run: enumerate steps from 1 on the freshly acquired
page (handle 0) and collect results. -/
def FeedGuideRunner.run (env : Env) (dir : String) (g : FeedGuide) : RunResult :=
  let out := runSteps env dir 1 0 g.steps
  { feed_name := g.feed_name, steps := out.steps, downloads := out.downloads,
    events := out.events, aborted := out.aborted }

/-- An all-succeeding environment used for concrete runs. -/
def okEnv : Env where
  goto := fun _ _ => Except.ok ()
  waitForSelector := fun _ _ => Except.ok ()
  fill := fun _ _ _ => Except.ok ()
  clickSelector := fun _ _ => Except.ok ()
  safeClickByText := fun _ t => (true, "Clicked by text=" ++ t)
  newPageSel := fun p _ => Except.ok (p + 1)
  newPageText := fun p _ => Except.ok (p + 1)
  dlSel := fun _ _ => DlOutcome.completed "sugg.xls"
  dlText := fun _ _ => DlOutcome.completed "sugg.xls"
  fetch := fun _ => Except.ok ()

/-- Environment whose direct HTTP fetch always fails. -/
def badFetchEnv : Env :=
  { okEnv with fetch := fun _ => Except.error "connection refused" }

/-- A step record with every key absent. -/
def baseStep : Step where
  action := none
  url := none
  selector := none
  text := none
  save_as := none
  value := none
  seconds := none
  continue_on_error := false

/-- Default StepResult used with List.getD. -/
def noResult : StepResult where
  step := 0
  action := ""
  raw := baseStep
  status := none
  info := none
  error := none
  resOk := none
  file := none

/-- Predicate for the configuration errors of claim C1: a click step with
neither selector nor text, a click_new_page step with neither selector nor
text, or a download step with none of url, selector, text. -/
def missingLocator (s : Step) : Prop :=
  (dispatch (actionOf s) = ActionKind.click ∧ s.selector = none ∧ s.text = none) ∨
  (dispatch (actionOf s) = ActionKind.click_new_page ∧ s.selector = none ∧ s.text = none) ∨
  (dispatch (actionOf s) = ActionKind.download ∧ s.url = none ∧ s.selector = none ∧ s.text = none)

/-- Environment in which text resolution always fails, as when the target
element does not exist on the page. -/
def noClickEnv : Env :=
  { okEnv with safeClickByText := fun _ t => (false, "Element with text " ++ t ++ " not found") }

/-- A goto step used as the successor step in several concrete runs. -/
def gotoStepA : Step := { baseStep with action := some "goto", url := some "http://a" }

/-- Guide for the C1 counterexample: a click step with no locator and
continue_on_error true, followed by a goto step. -/
def gC1 : FeedGuide :=
  { feed_name := some "g1",
    steps := [{ baseStep with action := some "click", continue_on_error := true }, gotoStepA] }

/-- A click step with no locator and continue_on_error unset. -/
def sC1w : Step := { baseStep with action := some "click" }

/-- A download step on the direct-fetch path (url present). -/
def sC2 : Step := { baseStep with action := some "download", url := some "http://a/f.csv" }

/-- Guide for the C2 counterexample: a failing direct-fetch download with
continue_on_error unset, followed by a goto step. -/
def gC2 : FeedGuide := { feed_name := some "g2", steps := [sC2, gotoStepA] }

/-- Guide with a single direct-fetch download step. -/
def gC3 : FeedGuide := { feed_name := some "g3", steps := [sC2] }

/-- A download step on the browser-triggered path (selector present). -/
def sC4 : Step :=
  { baseStep with
      action := some "download"
      selector := some "text=bos_history.xls"
      save_as := some "bos_history.xls" }

/-- Guide with a single browser-triggered download step. -/
def gC4 : FeedGuide := { feed_name := some "g4", steps := [sC4] }

/-- A click-by-text step with continue_on_error unset. -/
def sC6 : Step := { baseStep with action := some "click", text := some "Nonexistent Button" }

/-- Guide for the C6 witness: a failing click step followed by a goto step. -/
def gC6 : FeedGuide := { feed_name := some "g6", steps := [sC6, gotoStepA] }

/-- A direct-fetch download step with continue_on_error true. -/
def sC7 : Step :=
  { baseStep with
      action := some "download"
      url := some "http://a/f.csv"
      continue_on_error := true }

/-- Guide with a single failing direct-fetch download, flag set. -/
def gC7 : FeedGuide := { feed_name := some "g7", steps := [sC7] }

/-- A click_new_page step locating its element by selector. -/
def sC9 : Step := { baseStep with action := some "click_new_page", selector := some "#lnk" }

/-- A goto step whose action name is written in upper case. -/
def sGOTO : Step := { baseStep with action := some "GOTO", url := some "http://a" }

/-- Inversion of the dispatch chain: only the exact string "download"
selects the download branch. -/
lemma dispatch_download_eq (a : String) (h : dispatch a = ActionKind.download) : a = "download" := by
  unfold dispatch at h
  split_ifs at h
  all_goals simp_all

/-- Whenever the try body finishes normally with status "error" (rather
than raising), the step had continue_on_error set: the error branches that
do not raise are exactly the ones guarded by the flag. -/
lemma execBody_done_error_flag (env : Env) (dir : String) (page : Nat) (s : Step) (a : String) :
    ∀ info err rOk file p evs dls,
      execBody env dir page s a = TryOut.done (some "error") info err rOk file p evs dls →
      s.continue_on_error = true := by
  intro info err rOk file p evs dls h
  unfold execBody dlBrowser dlOutcomeHandle download_via_requests at h
  repeat' split at h
  all_goals simp_all

/-- Shape of the status field assigned by the try body: "ok", "error", or
no status at all, the last only with an "ok" key merged in, on the
direct-fetch download branch. -/
lemma execBody_status_shape (env : Env) (dir : String) (page : Nat) (s : Step) (a : String) :
    ∀ st info err rOk file p evs dls,
      execBody env dir page s a = TryOut.done st info err rOk file p evs dls →
      st = some "ok" ∨ st = some "error" ∨
        (st = none ∧ rOk.isSome ∧ dispatch a = ActionKind.download) := by
  intro st info err rOk file p evs dls h
  unfold execBody dlBrowser dlOutcomeHandle download_via_requests at h
  repeat' split at h
  all_goals (try simp_all)
  all_goals (rcases h with ⟨rfl, rfl, rfl, rfl, rfl, rfl, rfl, rfl⟩; simp_all)

/-- Every file written by the direct-fetch helper is placed by joining the
download directory with the derived filename. -/
lemma dvr_writes (env : Env) (dir u : String) (sa : Option String) :
    ∀ r evs, download_via_requests env dir u sa = (r, evs) →
      ∀ q, Event.writeFile q ∈ evs → ∃ name, q = joinPath dir name := by
  intro r evs h q hq
  unfold download_via_requests at h
  split at h
  · cases h; simp at hq
  · cases h; simp at hq; subst hq; exact ⟨_, rfl⟩

/-- Every file written by the try body is either the fixed intermediate
file of the browser download branch or a join of the download directory
with a filename. -/
lemma execBody_writes (env : Env) (dir : String) (page : Nat) (s : Step) (a : String) :
    ∀ st info err rOk file p evs dls,
      execBody env dir page s a = TryOut.done st info err rOk file p evs dls →
      ∀ q, Event.writeFile q ∈ evs → q = "bos_history.xls" ∨ ∃ name, q = joinPath dir name := by
  intro st info err rOk file p evs dls h q hq
  unfold execBody dlBrowser dlOutcomeHandle at h
  repeat' split at h
  all_goals (try simp_all)
  all_goals (try (rcases h with ⟨rfl, rfl, rfl, rfl, rfl, rfl, rfl, rfl⟩; simp_all))
  all_goals (try ((rcases hq with rfl | rfl) <;>
    first
      | exact Or.inl rfl
      | exact Or.inr ⟨_, rfl⟩))
  all_goals (rcases h with ⟨rfl, rfl, rfl, rfl, rfl, rfl, rfl, rfl⟩)
  all_goals exact Or.inr (by apply dvr_writes <;> assumption)

/-- A step whose recorded StepResult has status "error" aborts the run
when its continue_on_error flag is false. -/
lemma execStep_error_abort (env : Env) (dir : String) (page idx : Nat) (s : Step)
    (herr : (execStep env dir page idx s).sr.status = some "error")
    (hflag : s.continue_on_error = false) :
    (execStep env dir page idx s).ab.isSome = true := by
  unfold execStep at herr ⊢
  rcases hB : execBody env dir page s (actionOf s) with ⟨st, info, err, rOk, file, p, evs, dls⟩ | ⟨msg, infoPre⟩
  · rw [hB] at herr
    simp at herr
    subst herr
    have hflag2 := execBody_done_error_flag env dir page s (actionOf s) _ _ _ _ _ _ _ hB
    simp [hflag] at hflag2
  · simp [hflag]

/-- A step with continue_on_error set never aborts the run, whatever its
outcome. -/
lemma execStep_flag_no_abort (env : Env) (dir : String) (page idx : Nat) (s : Step)
    (hflag : s.continue_on_error = true) :
    (execStep env dir page idx s).ab = none := by
  unfold execStep
  rcases hB : execBody env dir page s (actionOf s) with ⟨st, info, err, rOk, file, p, evs, dls⟩ | ⟨msg, infoPre⟩
  · simp
  · simp [hflag]

/-- Shape of every recorded StepResult: status "ok" or "error", or no
status on the direct-fetch download path, which records an "ok" key
instead. -/
lemma execStep_sr_shape (env : Env) (dir : String) (page idx : Nat) (s : Step) :
    (execStep env dir page idx s).sr.status = some "ok" ∨
    (execStep env dir page idx s).sr.status = some "error" ∨
    ((execStep env dir page idx s).sr.status = none ∧
      (execStep env dir page idx s).sr.action = "download" ∧
      (execStep env dir page idx s).sr.resOk.isSome) := by
  unfold execStep
  rcases hB : execBody env dir page s (actionOf s) with ⟨st, info, err, rOk, file, p, evs, dls⟩ | ⟨msg, infoPre⟩
  · rcases execBody_status_shape env dir page s (actionOf s) _ _ _ _ _ _ _ _ hB with h | h | ⟨h1, h2, h3⟩
    · left; simpa using h
    · right; left; simpa using h
    · right; right
      refine ⟨by simpa using h1, ?_, by simpa using h2⟩
      simpa using dispatch_download_eq _ h3
  · right; left; simp

/-- Every file written during one step is the fixed intermediate file or a
join under the download directory. -/
lemma execStep_writes (env : Env) (dir : String) (page idx : Nat) (s : Step) :
    ∀ q, Event.writeFile q ∈ (execStep env dir page idx s).events →
      q = "bos_history.xls" ∨ ∃ name, q = joinPath dir name := by
  intro q hq
  unfold execStep at hq
  rcases hB : execBody env dir page s (actionOf s) with ⟨st, info, err, rOk, file, p, evs, dls⟩ | ⟨msg, infoPre⟩
  · rw [hB] at hq
    simp at hq
    exact execBody_writes env dir page s (actionOf s) _ _ _ _ _ _ _ _ hB q hq
  · rw [hB] at hq
    simp at hq

/-- Unfolding of the step loop when the head step does not abort. -/
lemma runSteps_cons_cont (env : Env) (dir : String) (idx page : Nat) (s : Step) (rest : List Step)
    (h : (execStep env dir page idx s).ab = none) :
    runSteps env dir idx page (s :: rest) =
      { steps := (execStep env dir page idx s).sr ::
          (runSteps env dir (idx + 1) (execStep env dir page idx s).page rest).steps,
        downloads := (execStep env dir page idx s).dls ++
          (runSteps env dir (idx + 1) (execStep env dir page idx s).page rest).downloads,
        events := (execStep env dir page idx s).events ++
          (runSteps env dir (idx + 1) (execStep env dir page idx s).page rest).events,
        aborted := (runSteps env dir (idx + 1) (execStep env dir page idx s).page rest).aborted,
        finalPage := (runSteps env dir (idx + 1) (execStep env dir page idx s).page rest).finalPage } := by
  simp only [runSteps]
  rw [h]

/-- Unfolding of the step loop when the head step aborts: its StepResult
is still appended and no further step runs. -/
lemma runSteps_cons_abort (env : Env) (dir : String) (idx page : Nat) (s : Step) (rest : List Step)
    (m : String) (h : (execStep env dir page idx s).ab = some m) :
    runSteps env dir idx page (s :: rest) =
      { steps := [(execStep env dir page idx s).sr],
        downloads := (execStep env dir page idx s).dls,
        events := (execStep env dir page idx s).events,
        aborted := true,
        finalPage := (execStep env dir page idx s).page } := by
  simp only [runSteps]
  rw [h]

/-- C3 (corrected, amended theorem): every StepResult appended to the run
carries status ok or error, except those of download steps taking the
direct-fetch path, which carry no status field at all and instead carry
the merged ok flag of the fetch result dict. -/
theorem claim_C3_amended_thm (env : Env) (dir : String) (idx page : Nat) (ss : List Step) :
    ∀ sr ∈ (runSteps env dir idx page ss).steps,
      sr.status = some "ok" ∨ sr.status = some "error" ∨
        (sr.status = none ∧ sr.action = "download" ∧ sr.resOk.isSome) := by
  induction ss generalizing idx page with
  | nil => intro sr h; simp [runSteps] at h
  | cons s rest ih =>
    intro sr h
    rcases hab : (execStep env dir page idx s).ab with _ | m
    · rw [runSteps_cons_cont env dir idx page s rest hab] at h
      simp at h
      rcases h with rfl | h
      · exact execStep_sr_shape env dir page idx s
      · exact ih (idx + 1) (execStep env dir page idx s).page sr h
    · rw [runSteps_cons_abort env dir idx page s rest m hab] at h
      simp at h
      subst h
      exact execStep_sr_shape env dir page idx s

/-- C4 (corrected, amended theorem): every file written by the engine is
either placed by joining the configured download directory with the chosen
filename - which lies under download_dir whenever that filename is not an
absolute path - or is the fixed intermediate file bos_history.xls that the
browser-triggered download path always writes relative to the working
directory, outside download_dir. -/
theorem claim_C4_amended_thm (env : Env) (dir : String) (idx page : Nat) (ss : List Step) :
    ∀ q, Event.writeFile q ∈ (runSteps env dir idx page ss).events →
      q = "bos_history.xls" ∨
        ∃ name, q = joinPath dir name ∧ (isAbs name = false → q = dir ++ "/" ++ name) := by
  induction ss generalizing idx page with
  | nil => intro q h; simp [runSteps] at h
  | cons s rest ih =>
    intro q h
    rcases hab : (execStep env dir page idx s).ab with _ | m
    · rw [runSteps_cons_cont env dir idx page s rest hab] at h
      simp at h
      rcases h with h | h
      · rcases execStep_writes env dir page idx s q h with h1 | ⟨name, rfl⟩
        · exact Or.inl h1
        · refine Or.inr ⟨name, rfl, ?_⟩
          intro habs
          simp [joinPath, habs]
      · exact ih (idx + 1) _ q h
    · rw [runSteps_cons_abort env dir idx page s rest m hab] at h
      simp at h
      rcases execStep_writes env dir page idx s q h with h1 | ⟨name, rfl⟩
      · exact Or.inl h1
      · refine Or.inr ⟨name, rfl, ?_⟩
        intro habs
        simp [joinPath, habs]

/-- C6 (confirmed): in every run, a StepResult with status error recorded
for a step whose continue_on_error flag is unset or false is the last
StepResult of the run - it is appended before termination and no step
after it produces a StepResult - and the run terminates by aborting. -/
theorem claim_C6_thm (env : Env) (dir : String) (idx page k : Nat) (ss : List Step)
    (hk : k < (runSteps env dir idx page ss).steps.length)
    (herr : ((runSteps env dir idx page ss).steps.getD k noResult).status = some "error")
    (hflag : (ss.getD k baseStep).continue_on_error = false) :
    (runSteps env dir idx page ss).steps.length = k + 1 ∧
    (runSteps env dir idx page ss).aborted = true := by
  induction ss generalizing idx page k with
  | nil => simp [runSteps] at hk
  | cons s rest ih =>
    rcases hab : (execStep env dir page idx s).ab with _ | m
    · rw [runSteps_cons_cont env dir idx page s rest hab] at hk herr ⊢
      cases k with
      | zero =>
        simp at herr
        have h2 := execStep_error_abort env dir page idx s herr (by simpa using hflag)
        rw [hab] at h2
        simp at h2
      | succ k =>
        have hk2 : k < (runSteps env dir (idx + 1) (execStep env dir page idx s).page rest).steps.length := by
          simpa using hk
        have herr2 : (((runSteps env dir (idx + 1) (execStep env dir page idx s).page rest).steps.getD k
            noResult)).status = some "error" := by
          simpa using herr
        have hflag2 : (rest.getD k baseStep).continue_on_error = false := by
          simpa using hflag
        have hih := ih (idx + 1) (execStep env dir page idx s).page k hk2 herr2 hflag2
        simp [hih.1, hih.2]
    · rw [runSteps_cons_abort env dir idx page s rest m hab] at hk ⊢
      have hk0 : k = 0 := Nat.lt_one_iff.mp (by simpa using hk)
      subst hk0
      simp

/-- A step with a missing required locator makes the try body raise the
corresponding ValueError message, with no fields assigned before the
raise. -/
lemma missingLocator_raised (env : Env) (dir : String) (page : Nat) (s : Step)
    (h : missingLocator s) :
    ∃ m, execBody env dir page s (actionOf s) = TryOut.raised m none := by
  rcases h with ⟨hd, h1, h2⟩ | ⟨hd, h1, h2⟩ | ⟨hd, h0, h1, h2⟩
  · refine ⟨"click requires selector or text", ?_⟩
    unfold execBody
    rw [hd, h1, h2]
  · refine ⟨"click_new_page needs selector or text", ?_⟩
    unfold execBody
    rw [hd, h1, h2]
  · refine ⟨"download needs selector/text/url", ?_⟩
    unfold execBody
    rw [hd, h0, h1, h2]
    simp

/-- C1 (corrected, amended theorem): a step with a missing required
locator field records a StepResult with status error; it aborts the run
when continue_on_error is unset or false, but with continue_on_error true
the run continues and subsequent steps still execute, like any other step
failure - the configuration error is not unconditionally fatal. -/
theorem claim_C1_amended_thm (env : Env) (dir : String) (page idx : Nat) (s : Step)
    (rest : List Step) (h : missingLocator s) :
    (execStep env dir page idx s).sr.status = some "error" ∧
    (s.continue_on_error = false →
      (runSteps env dir idx page (s :: rest)).steps = [(execStep env dir page idx s).sr] ∧
      (runSteps env dir idx page (s :: rest)).aborted = true) ∧
    (s.continue_on_error = true →
      (execStep env dir page idx s).ab = none ∧
      (runSteps env dir idx page (s :: rest)).steps =
        (execStep env dir page idx s).sr :: (runSteps env dir (idx + 1) page rest).steps) := by
  obtain ⟨m, hB⟩ := missingLocator_raised env dir page s h
  have hE : execStep env dir page idx s =
      { sr := { step := idx, action := actionOf s, raw := s, status := some "error",
                info := none, error := some m, resOk := none, file := none },
        page := page, events := [], dls := [],
        ab := if s.continue_on_error then none else some m } := by
    unfold execStep
    rw [hB]
  refine ⟨by rw [hE], ?_, ?_⟩
  · intro hf
    have hab : (execStep env dir page idx s).ab = some m := by
      rw [hE]; simp [hf]
    rw [runSteps_cons_abort env dir idx page s rest m hab]
    exact ⟨rfl, rfl⟩
  · intro ht
    have hab : (execStep env dir page idx s).ab = none := by
      rw [hE]; simp [ht]
    have hpage : (execStep env dir page idx s).page = page := by rw [hE]
    refine ⟨hab, ?_⟩
    rw [runSteps_cons_cont env dir idx page s rest hab, hpage]

/-- The try body of a direct-fetch download step whose fetch fails merges
the error dict into the step result and does not raise. -/
lemma execBody_direct_fetch_err (env : Env) (dir : String) (page : Nat) (s : Step) (u e : String)
    (hd : dispatch (actionOf s) = ActionKind.download) (hu : s.url = some u)
    (hf : env.fetch u = Except.error e) :
    execBody env dir page s (actionOf s) =
      TryOut.done none none (some e) (some false) none page [] [] := by
  simp [execBody, download_via_requests, hd, hu, hf]

/-- C2 (corrected, amended theorem): a download step on the direct-fetch
path whose fetch fails records ok false and the error message on its
StepResult but no status field, and never aborts the run: execution
continues with the next step regardless of continue_on_error. -/
theorem claim_C2_amended_thm (env : Env) (dir : String) (page idx : Nat) (s : Step)
    (rest : List Step) (u e : String)
    (ha : actionOf s = "download") (hu : s.url = some u)
    (hf : env.fetch u = Except.error e) :
    (execStep env dir page idx s).sr.status = none ∧
    (execStep env dir page idx s).sr.resOk = some false ∧
    (execStep env dir page idx s).sr.error = some e ∧
    (execStep env dir page idx s).ab = none ∧
    (runSteps env dir idx page (s :: rest)).steps =
      (execStep env dir page idx s).sr :: (runSteps env dir (idx + 1) page rest).steps := by
  have hd : dispatch (actionOf s) = ActionKind.download := by rw [ha]; decide
  have hB := execBody_direct_fetch_err env dir page s u e hd hu hf
  have hE : execStep env dir page idx s =
      { sr := { step := idx, action := actionOf s, raw := s, status := none, info := none,
                error := some e, resOk := some false, file := none },
        page := page, events := [], dls := [], ab := none } := by
    unfold execStep
    rw [hB]
  have hab : (execStep env dir page idx s).ab = none := by rw [hE]
  have hpage : (execStep env dir page idx s).page = page := by rw [hE]
  refine ⟨by rw [hE], by rw [hE], by rw [hE], hab, ?_⟩
  rw [runSteps_cons_cont env dir idx page s rest hab, hpage]

/-- C7 (corrected, amended theorem): a step with continue_on_error true
never aborts the run and execution proceeds to the next step; its recorded
StepResult has status ok or error in every case except the direct-fetch
download path, where a failure is recorded with ok false and no status
field. -/
theorem claim_C7_amended_thm (env : Env) (dir : String) (page idx : Nat) (s : Step)
    (rest : List Step) (h : s.continue_on_error = true) :
    (execStep env dir page idx s).ab = none ∧
    (runSteps env dir idx page (s :: rest)).steps =
      (execStep env dir page idx s).sr ::
        (runSteps env dir (idx + 1) (execStep env dir page idx s).page rest).steps ∧
    ((execStep env dir page idx s).sr.status = some "ok" ∨
     (execStep env dir page idx s).sr.status = some "error" ∨
     ((execStep env dir page idx s).sr.status = none ∧
       (execStep env dir page idx s).sr.resOk.isSome)) := by
  have hab := execStep_flag_no_abort env dir page idx s h
  refine ⟨hab, ?_, ?_⟩
  · rw [runSteps_cons_cont env dir idx page s rest hab]
  · rcases execStep_sr_shape env dir page idx s with h1 | h1 | ⟨h1, h2, h3⟩
    · exact Or.inl h1
    · exact Or.inr (Or.inl h1)
    · exact Or.inr (Or.inr ⟨h1, h3⟩)

/-- C9 (confirmed): a successful click_new_page step replaces the current
page with the newly opened page, records status ok, does not abort, and
every subsequent step of the run executes against the new page - in
particular a later goto navigates the new page, not the page that was
current before the click_new_page step. -/
theorem claim_C9_thm (env : Env) (dir : String) (idx page p2 : Nat) (s : Step) (rest : List Step)
    (hA : actionOf s = "click_new_page")
    (h : (∃ sel, s.selector = some sel ∧ env.newPageSel page sel = Except.ok p2) ∨
         (s.selector = none ∧ ∃ t, s.text = some t ∧ env.newPageText page t = Except.ok p2)) :
    (execStep env dir page idx s).page = p2 ∧
    (execStep env dir page idx s).ab = none ∧
    (execStep env dir page idx s).sr.status = some "ok" ∧
    (runSteps env dir idx page (s :: rest)).steps =
      (execStep env dir page idx s).sr :: (runSteps env dir (idx + 1) p2 rest).steps ∧
    (∀ s2 u, actionOf s2 = "goto" → s2.url = some u → env.goto p2 u = Except.ok () →
      (execStep env dir p2 (idx + 1) s2).events = [Event.pageAct p2 ("goto " ++ u)]) := by
  have hd : dispatch (actionOf s) = ActionKind.click_new_page := by rw [hA]; decide
  have hB : ∃ msg, execBody env dir page s (actionOf s) =
      TryOut.done (some "ok") (some msg) none none none p2 [] [] := by
    rcases h with ⟨sel, hsel, henv⟩ | ⟨hsel, t, ht, henv⟩
    · refine ⟨"Opened new page via selector", ?_⟩
      simp [execBody, hd, hsel, henv]
    · refine ⟨"Opened new page via text", ?_⟩
      simp [execBody, hd, hsel, ht, henv]
  obtain ⟨msg, hB⟩ := hB
  have hE : execStep env dir page idx s =
      { sr := { step := idx, action := actionOf s, raw := s, status := some "ok",
                info := some msg, error := none, resOk := none, file := none },
        page := p2, events := [], dls := [], ab := none } := by
    unfold execStep
    rw [hB]
  have hab : (execStep env dir page idx s).ab = none := by rw [hE]
  have hpage : (execStep env dir page idx s).page = p2 := by rw [hE]
  refine ⟨hpage, hab, by rw [hE], ?_, ?_⟩
  · rw [runSteps_cons_cont env dir idx page s rest hab, hpage]
  · intro s2 u h1 h2 h3
    have hd2 : dispatch (actionOf s2) = ActionKind.goto := by rw [h1]; decide
    have hB2 : execBody env dir p2 s2 (actionOf s2) =
        TryOut.done (some "ok") (some ("Navigated to " ++ u)) none none none p2
          [Event.pageAct p2 ("goto " ++ u)] [] := by
      simp [execBody, hd2, h2, h3]
    unfold execStep
    rw [hB2]

/-- C5 (confirmed): for a completed browser-triggered download the
destination filename is save_as when the step provides it, else the
suggested filename of the download when that is non-empty, else the
generic fallback download.bin; and the download handler saves to exactly
that name joined under the download directory. -/
theorem claim_C5_thm :
    (∀ s sugg, browserDownloadName (some s) sugg = s) ∧
    (∀ sugg, sugg ≠ "" → browserDownloadName none sugg = sugg) ∧
    browserDownloadName none "" = "download.bin" ∧
    (∀ dir page st sugg, dlOutcomeHandle dir page st (DlOutcome.completed sugg) =
      TryOut.done (some "ok") none none none
        (some (joinPath dir (browserDownloadName st.save_as sugg))) page
        [Event.writeFile "bos_history.xls",
         Event.writeFile (joinPath dir (browserDownloadName st.save_as sugg))]
        [joinPath dir (browserDownloadName st.save_as sugg)]) := by
  refine ⟨fun s sugg => rfl, fun sugg h => ?_, rfl, fun dir page st sugg => rfl⟩
  unfold browserDownloadName
  simp [h]

/-- C8 (corrected, amended theorem): for a successful direct-fetch
download the saved filename equals save_as whenever save_as is provided
and non-empty; with save_as absent it equals the final path segment of the
url, with the generic fallback download.bin when that segment is empty;
and the fetch helper saves to that name joined under the download
directory. An empty provided save_as falls through to the url segment. -/
theorem claim_C8_amended_thm :
    (∀ s u, s ≠ "" → directFetchFilename (some s) u = s) ∧
    (∀ u, directFetchFilename none u = if lastSeg u = "" then "download.bin" else lastSeg u) ∧
    (∀ (env : Env) (dir u : String) (saveAs : Option String), env.fetch u = Except.ok () →
      download_via_requests env dir u saveAs =
        (DVROut.ok (joinPath dir (directFetchFilename saveAs u)),
         [Event.writeFile (joinPath dir (directFetchFilename saveAs u))])) := by
  refine ⟨fun s u h => ?_, fun u => rfl, fun env dir u saveAs h => ?_⟩
  · unfold directFetchFilename
    simp [h]
  · unfold download_via_requests
    rw [h]

/-- C10 (confirmed): the action string is lowercased before dispatch, so
GOTO and goto select the same branch; click_text is dispatched to the same
branch as click; and a step whose action field is missing is handled by
the unknown-action branch, recording a StepResult with status error and an
unknown-action message. -/
theorem claim_C10_thm :
    (∀ s : Step, s.action = some "GOTO" →
      actionOf s = "goto" ∧ actionOf s = actionOf { s with action := some "goto" }) ∧
    (dispatch "click_text" = dispatch "click" ∧ dispatch "click" = ActionKind.click) ∧
    (∀ (env : Env) (dir : String) (page idx : Nat) (s : Step), s.action = none →
      (execStep env dir page idx s).sr.status = some "error" ∧
      (execStep env dir page idx s).sr.error = some ("Unknown action: " ++ actionOf s)) := by
  refine ⟨fun s h => ⟨?_, ?_⟩, ⟨by decide, by decide⟩, fun env dir page idx s h => ?_⟩
  · unfold actionOf
    rw [h]
    decide
  · unfold actionOf
    rw [h]
    show pyLower "GOTO" = pyLower "goto"
    decide
  · have ha : actionOf s = "" := by unfold actionOf; rw [h]; rfl
    have hd : dispatch (actionOf s) = ActionKind.unknown := by rw [ha]; decide
    cases hc : s.continue_on_error
    · have hB : execBody env dir page s (actionOf s) =
          TryOut.raised ("Unknown action: " ++ actionOf s) none := by
        unfold execBody
        rw [hd, hc]
        simp
      unfold execStep
      rw [hB]
      exact ⟨rfl, rfl⟩
    · have hB : execBody env dir page s (actionOf s) =
          TryOut.done (some "error") none (some ("Unknown action: " ++ actionOf s))
            none none page [] [] := by
        unfold execBody
        rw [hd, hc]
        simp
      unfold execStep
      rw [hB]
      exact ⟨rfl, rfl⟩

/-- C1 counterexample: a click step with neither selector nor text but
with continue_on_error true records a configuration-error StepResult, yet
the following goto step still executes and the run does not abort,
contradicting the claim that such errors are always fatal. -/
theorem claim_C1_counterexample :
    (FeedGuideRunner.run okEnv "/downloads" gC1).steps.length = 2 ∧
    ((FeedGuideRunner.run okEnv "/downloads" gC1).steps.getD 0 noResult).status = some "error" ∧
    ((FeedGuideRunner.run okEnv "/downloads" gC1).steps.getD 0 noResult).error =
      some "click requires selector or text" ∧
    ((FeedGuideRunner.run okEnv "/downloads" gC1).steps.getD 1 noResult).status = some "ok" ∧
    (FeedGuideRunner.run okEnv "/downloads" gC1).aborted = false := by decide

/-- C2 counterexample: a direct-fetch download whose fetch fails, with
continue_on_error unset, records no status field (so not status error) and
the run continues to the next step instead of aborting. -/
theorem claim_C2_counterexample :
    ((FeedGuideRunner.run badFetchEnv "/downloads" gC2).steps.getD 0 noResult).status = none ∧
    ((FeedGuideRunner.run badFetchEnv "/downloads" gC2).steps.getD 0 noResult).resOk = some false ∧
    (gC2.steps.getD 0 baseStep).continue_on_error = false ∧
    (FeedGuideRunner.run badFetchEnv "/downloads" gC2).steps.length = 2 ∧
    (FeedGuideRunner.run badFetchEnv "/downloads" gC2).aborted = false := by decide

/-- C3 counterexample: the StepResult of a successful direct-fetch
download carries no status field, so its status is neither ok nor
error. -/
theorem claim_C3_counterexample :
    ((FeedGuideRunner.run okEnv "/downloads" gC3).steps.getD 0 noResult).status = none ∧
    ((FeedGuideRunner.run okEnv "/downloads" gC3).steps.getD 0 noResult).resOk = some true := by decide

/-- C4 counterexample: a completed browser-triggered download writes the
fixed relative path bos_history.xls, which is not an absolute path and
does not extend the download directory, so the write lands outside
download_dir (in the working directory). -/
theorem claim_C4_counterexample :
    Event.writeFile "bos_history.xls" ∈ (FeedGuideRunner.run okEnv "/downloads" gC4).events ∧
    isAbs "bos_history.xls" = false ∧
    strLeads ("/downloads" ++ "/").data "bos_history.xls".data = false := by decide

/-- C7 counterexample: a failing direct-fetch download step with
continue_on_error true records a StepResult whose status is not error (the
status field is absent). -/
theorem claim_C7_counterexample :
    sC7.continue_on_error = true ∧
    ((FeedGuideRunner.run badFetchEnv "/downloads" gC7).steps.getD 0 noResult).resOk = some false ∧
    ((FeedGuideRunner.run badFetchEnv "/downloads" gC7).steps.getD 0 noResult).status ≠ some "error" := by
  decide

/-- C8 counterexample: with save_as provided as the empty string the saved
filename is the final url segment, not save_as. -/
theorem claim_C8_counterexample :
    directFetchFilename (some "") "http://x/file.csv" = "file.csv" ∧ "file.csv" ≠ "" := by decide

/-- C1 witness: the amended theorem applied to a concrete click step with
no locator and flag unset. -/
theorem claim_C1_witness :
    missingLocator sC1w ∧
    ((execStep okEnv "/downloads" 0 1 sC1w).sr.status = some "error" ∧
     (sC1w.continue_on_error = false →
       (runSteps okEnv "/downloads" 1 0 (sC1w :: [gotoStepA])).steps =
         [(execStep okEnv "/downloads" 0 1 sC1w).sr] ∧
       (runSteps okEnv "/downloads" 1 0 (sC1w :: [gotoStepA])).aborted = true) ∧
     (sC1w.continue_on_error = true →
       (execStep okEnv "/downloads" 0 1 sC1w).ab = none ∧
       (runSteps okEnv "/downloads" 1 0 (sC1w :: [gotoStepA])).steps =
         (execStep okEnv "/downloads" 0 1 sC1w).sr ::
           (runSteps okEnv "/downloads" 2 0 [gotoStepA]).steps)) :=
  ⟨by unfold missingLocator; decide,
   claim_C1_amended_thm okEnv "/downloads" 0 1 sC1w [gotoStepA] (by unfold missingLocator; decide)⟩

/-- C2 witness: the amended theorem applied to a concrete failing
direct-fetch download followed by a goto step. -/
theorem claim_C2_witness :
    (actionOf sC2 = "download" ∧ sC2.url = some "http://a/f.csv" ∧
      badFetchEnv.fetch "http://a/f.csv" = Except.error "connection refused") ∧
    ((execStep badFetchEnv "/downloads" 0 1 sC2).sr.status = none ∧
     (execStep badFetchEnv "/downloads" 0 1 sC2).sr.resOk = some false ∧
     (execStep badFetchEnv "/downloads" 0 1 sC2).sr.error = some "connection refused" ∧
     (execStep badFetchEnv "/downloads" 0 1 sC2).ab = none ∧
     (runSteps badFetchEnv "/downloads" 1 0 (sC2 :: [gotoStepA])).steps =
       (execStep badFetchEnv "/downloads" 0 1 sC2).sr ::
         (runSteps badFetchEnv "/downloads" 2 0 [gotoStepA]).steps) :=
  ⟨⟨by decide, by decide, rfl⟩,
   claim_C2_amended_thm badFetchEnv "/downloads" 0 1 sC2 [gotoStepA] "http://a/f.csv"
     "connection refused" (by decide) (by decide) rfl⟩

/-- C3 witness: the amended theorem applied to the first StepResult of a
concrete run with a direct-fetch download. -/
theorem claim_C3_witness :
    ((runSteps okEnv "/downloads" 1 0 gC3.steps).steps.getD 0 noResult ∈
      (runSteps okEnv "/downloads" 1 0 gC3.steps).steps) ∧
    (((runSteps okEnv "/downloads" 1 0 gC3.steps).steps.getD 0 noResult).status = some "ok" ∨
     ((runSteps okEnv "/downloads" 1 0 gC3.steps).steps.getD 0 noResult).status = some "error" ∨
     (((runSteps okEnv "/downloads" 1 0 gC3.steps).steps.getD 0 noResult).status = none ∧
      ((runSteps okEnv "/downloads" 1 0 gC3.steps).steps.getD 0 noResult).action = "download" ∧
      ((runSteps okEnv "/downloads" 1 0 gC3.steps).steps.getD 0 noResult).resOk.isSome)) :=
  ⟨by decide, claim_C3_amended_thm okEnv "/downloads" 1 0 gC3.steps _ (by decide)⟩

/-- C4 witness: the amended theorem applied to the file written by a
concrete direct-fetch download. -/
theorem claim_C4_witness :
    (Event.writeFile "/downloads/f.csv" ∈ (runSteps okEnv "/downloads" 1 0 gC3.steps).events) ∧
    ("/downloads/f.csv" = "bos_history.xls" ∨
      ∃ name, "/downloads/f.csv" = joinPath "/downloads" name ∧
        (isAbs name = false → "/downloads/f.csv" = "/downloads" ++ "/" ++ name)) :=
  ⟨by decide, claim_C4_amended_thm okEnv "/downloads" 1 0 gC3.steps "/downloads/f.csv" (by decide)⟩

/-- C5 witness: the three precedence cases at concrete filenames. -/
theorem claim_C5_witness :
    browserDownloadName (some "a.xls") "sugg.xls" = "a.xls" ∧
    ("sugg.xls" ≠ "" ∧ browserDownloadName none "sugg.xls" = "sugg.xls") ∧
    browserDownloadName none "" = "download.bin" :=
  ⟨claim_C5_thm.1 "a.xls" "sugg.xls", ⟨by decide, claim_C5_thm.2.1 "sugg.xls" (by decide)⟩,
   claim_C5_thm.2.2.1⟩

/-- C6 witness: the theorem applied to a concrete run whose first step
fails with flag unset; the run has exactly one StepResult and aborts. -/
theorem claim_C6_witness :
    (0 < (runSteps noClickEnv "/downloads" 1 0 gC6.steps).steps.length ∧
     ((runSteps noClickEnv "/downloads" 1 0 gC6.steps).steps.getD 0 noResult).status =
       some "error" ∧
     (gC6.steps.getD 0 baseStep).continue_on_error = false) ∧
    ((runSteps noClickEnv "/downloads" 1 0 gC6.steps).steps.length = 0 + 1 ∧
     (runSteps noClickEnv "/downloads" 1 0 gC6.steps).aborted = true) :=
  ⟨⟨by decide, by decide, by decide⟩,
   claim_C6_thm noClickEnv "/downloads" 1 0 0 gC6.steps (by decide) (by decide) (by decide)⟩

/-- C7 witness: the amended theorem applied to a concrete failing
direct-fetch download with flag set. -/
theorem claim_C7_witness :
    sC7.continue_on_error = true ∧
    ((execStep badFetchEnv "/downloads" 0 1 sC7).ab = none ∧
     (runSteps badFetchEnv "/downloads" 1 0 (sC7 :: [])).steps =
       (execStep badFetchEnv "/downloads" 0 1 sC7).sr ::
         (runSteps badFetchEnv "/downloads" 2
           (execStep badFetchEnv "/downloads" 0 1 sC7).page []).steps ∧
     ((execStep badFetchEnv "/downloads" 0 1 sC7).sr.status = some "ok" ∨
      (execStep badFetchEnv "/downloads" 0 1 sC7).sr.status = some "error" ∨
      ((execStep badFetchEnv "/downloads" 0 1 sC7).sr.status = none ∧
       (execStep badFetchEnv "/downloads" 0 1 sC7).sr.resOk.isSome))) :=
  ⟨by decide, claim_C7_amended_thm badFetchEnv "/downloads" 0 1 sC7 [] (by decide)⟩

/-- C8 witness: the amended theorem applied at concrete filenames and a
concrete successful fetch. -/
theorem claim_C8_witness :
    ("a.xls" ≠ "" ∧ directFetchFilename (some "a.xls") "http://x/file.csv" = "a.xls") ∧
    directFetchFilename none "http://x/file.csv" =
      (if lastSeg "http://x/file.csv" = "" then "download.bin" else lastSeg "http://x/file.csv") ∧
    (okEnv.fetch "http://x/file.csv" = Except.ok () ∧
      download_via_requests okEnv "/downloads" "http://x/file.csv" none =
        (DVROut.ok (joinPath "/downloads" (directFetchFilename none "http://x/file.csv")),
         [Event.writeFile (joinPath "/downloads" (directFetchFilename none "http://x/file.csv"))])) :=
  ⟨⟨by decide, claim_C8_amended_thm.1 "a.xls" "http://x/file.csv" (by decide)⟩,
   claim_C8_amended_thm.2.1 "http://x/file.csv",
   ⟨rfl, claim_C8_amended_thm.2.2 okEnv "/downloads" "http://x/file.csv" none rfl⟩⟩

/-- C9 witness: the theorem applied to a concrete click_new_page step that
opens page 1 from page 0. -/
theorem claim_C9_witness :
    (actionOf sC9 = "click_new_page" ∧
      ((∃ sel, sC9.selector = some sel ∧ okEnv.newPageSel 0 sel = Except.ok 1) ∨
       (sC9.selector = none ∧ ∃ t, sC9.text = some t ∧ okEnv.newPageText 0 t = Except.ok 1))) ∧
    ((execStep okEnv "/downloads" 0 1 sC9).page = 1 ∧
     (execStep okEnv "/downloads" 0 1 sC9).ab = none ∧
     (execStep okEnv "/downloads" 0 1 sC9).sr.status = some "ok" ∧
     (runSteps okEnv "/downloads" 1 0 (sC9 :: [gotoStepA])).steps =
       (execStep okEnv "/downloads" 0 1 sC9).sr ::
         (runSteps okEnv "/downloads" 2 1 [gotoStepA]).steps ∧
     (∀ s2 u, actionOf s2 = "goto" → s2.url = some u → okEnv.goto 1 u = Except.ok () →
       (execStep okEnv "/downloads" 1 2 s2).events = [Event.pageAct 1 ("goto " ++ u)])) :=
  ⟨⟨by decide, Or.inl ⟨"#lnk", rfl, rfl⟩⟩,
   claim_C9_thm okEnv "/downloads" 1 0 1 sC9 [gotoStepA] (by decide) (Or.inl ⟨"#lnk", rfl, rfl⟩)⟩

/-- C10 witness: the theorem applied to a concrete upper-case goto step, the
click_text alias, and a step with no action field. -/
theorem claim_C10_witness :
    (sGOTO.action = some "GOTO" ∧
      (actionOf sGOTO = "goto" ∧
        actionOf sGOTO = actionOf { sGOTO with action := some "goto" })) ∧
    (dispatch "click_text" = dispatch "click" ∧ dispatch "click" = ActionKind.click) ∧
    (baseStep.action = none ∧
      ((execStep okEnv "/downloads" 0 1 baseStep).sr.status = some "error" ∧
       (execStep okEnv "/downloads" 0 1 baseStep).sr.error =
         some ("Unknown action: " ++ actionOf baseStep))) :=
  ⟨⟨rfl, claim_C10_thm.1 sGOTO rfl⟩, claim_C10_thm.2.1,
   ⟨rfl, claim_C10_thm.2.2 okEnv "/downloads" 0 1 baseStep rfl⟩⟩
